import Mathlib

/-!
Verification of the icon-generation script `gen_icons.py`.

The script renders a square icon with a centred glyph "B": it loads the
first available serif font from an ordered candidate list, shrinks the
font size in a bounded loop until the measured glyph bounding box fits
inside the padded canvas, centres the glyph on the measured box, draws an
optional shadow for large sizes and the glyph itself, and finally writes
one PNG per entry of two fixed (path, pixel-size) tables.

Shallow embedding conventions:
* Python floats are modelled as rationals (ℚ); `int(x)` is truncation
  toward zero (`pyInt`), `//` is floor division (`Int.fdiv`).
* The imaging library is an external collaborator.  The parts of it the
  script observes are collected in `RenderEnv`: which font files exist,
  which load successfully, and the bounding box `textbbox` reports for
  the glyph at a given font.  The script's behaviour is a pure function
  of that environment.
* A rendered image is modelled as its construction data: mode, size,
  background colour and the ordered list of text-draw calls.  The
  library rasterises these deterministically, so two icons are
  byte-identical exactly when these data coincide.
-/

set_option maxRecDepth 100000

namespace GenIcons

/-- Python `int(x)` on a real value: truncation toward zero. -/
def pyInt (q : ℚ) : Int := if q < 0 then ⌈q⌉ else ⌊q⌋

/-- Design token `BG_COLOR = (8, 8, 8)`. -/
def BG_COLOR : List Nat := [8, 8, 8]

/-- Design token `FG_COLOR = (240, 234, 218)`. -/
def FG_COLOR : List Nat := [240, 234, 218]

/-- Design token `PADDING = 0.11`. -/
def PADDING : ℚ := 11 / 100

/-- The ordered font fallback list `FONT_CANDIDATES`. -/
def FONT_CANDIDATES : List String :=
  [ "C:\\Windows\\Fonts\\garabd.ttf"
  , "C:\\Windows\\Fonts\\timesbd.ttf"
  , "C:\\Windows\\Fonts\\georgiab.ttf"
  , "C:\\Windows\\Fonts\\georgia.ttf"
  , "C:\\Windows\\Fonts\\times.ttf" ]

/-- The Android icon table: relative output path and square pixel size. -/
def ANDROID_ICONS : List (String × Int) :=
  [ ("android\\app\\src\\main\\res\\mipmap-mdpi\\ic_launcher.png", 48)
  , ("android\\app\\src\\main\\res\\mipmap-hdpi\\ic_launcher.png", 72)
  , ("android\\app\\src\\main\\res\\mipmap-xhdpi\\ic_launcher.png", 96)
  , ("android\\app\\src\\main\\res\\mipmap-xxhdpi\\ic_launcher.png", 144)
  , ("android\\app\\src\\main\\res\\mipmap-xxxhdpi\\ic_launcher.png", 192) ]

/-- The iOS icon table: relative output path and square pixel size. -/
def IOS_ICONS : List (String × Int) :=
  [ ("ios\\Runner\\Assets.xcassets\\AppIcon.appiconset\\Icon-App-20x20@1x.png", 20)
  , ("ios\\Runner\\Assets.xcassets\\AppIcon.appiconset\\Icon-App-20x20@2x.png", 40)
  , ("ios\\Runner\\Assets.xcassets\\AppIcon.appiconset\\Icon-App-20x20@3x.png", 60)
  , ("ios\\Runner\\Assets.xcassets\\AppIcon.appiconset\\Icon-App-29x29@1x.png", 29)
  , ("ios\\Runner\\Assets.xcassets\\AppIcon.appiconset\\Icon-App-29x29@2x.png", 58)
  , ("ios\\Runner\\Assets.xcassets\\AppIcon.appiconset\\Icon-App-29x29@3x.png", 87)
  , ("ios\\Runner\\Assets.xcassets\\AppIcon.appiconset\\Icon-App-40x40@1x.png", 40)
  , ("ios\\Runner\\Assets.xcassets\\AppIcon.appiconset\\Icon-App-40x40@2x.png", 80)
  , ("ios\\Runner\\Assets.xcassets\\AppIcon.appiconset\\Icon-App-40x40@3x.png", 120)
  , ("ios\\Runner\\Assets.xcassets\\AppIcon.appiconset\\Icon-App-60x60@2x.png", 120)
  , ("ios\\Runner\\Assets.xcassets\\AppIcon.appiconset\\Icon-App-60x60@3x.png", 180)
  , ("ios\\Runner\\Assets.xcassets\\AppIcon.appiconset\\Icon-App-76x76@1x.png", 76)
  , ("ios\\Runner\\Assets.xcassets\\AppIcon.appiconset\\Icon-App-76x76@2x.png", 152)
  , ("ios\\Runner\\Assets.xcassets\\AppIcon.appiconset\\Icon-App-83.5x83.5@2x.png", 167)
  , ("ios\\Runner\\Assets.xcassets\\AppIcon.appiconset\\Icon-App-1024x1024@1x.png", 1024) ]

/-- A font handle: either a truetype font loaded from a path at a point
size (`ImageFont.truetype(path, size)`) or the library's built-in
default font (`ImageFont.load_default()`). -/
inductive Font where
  | truetype (path : String) (size : Int)
  | default
deriving DecidableEq

/-- A glyph bounding box as returned by `draw.textbbox((0, 0), "B", font)`:
left, top, right, bottom pixel coordinates. -/
structure Bbox where
  x0 : Int
  y0 : Int
  x1 : Int
  y1 : Int
deriving DecidableEq

/-- The externally observable behaviour of the imaging library and the
filesystem: which font paths exist, which (path, size) pairs load
successfully as truetype fonts, and the bounding box the measurement
backend reports for the glyph "B" under a given font. -/
structure RenderEnv where
  pathExists : String → Bool
  loadOk : String → Int → Bool
  textbbox : Font → Bbox

/-- The loop body of `load_font`: walk the candidate list; for each path
that exists, try to load it, returning the font on success and moving on
(the `except: continue`) otherwise; return the default font when the
list is exhausted. -/
def load_font_go (env : RenderEnv) (size : Int) : List String → Font
  | [] => Font.default
  | p :: rest =>
    if env.pathExists p then
      if env.loadOk p size then Font.truetype p size
      else load_font_go env size rest
    else load_font_go env size rest

/-- `load_font(size)`: best available serif font at the given size. -/
def load_font (env : RenderEnv) (size : Int) : Font :=
  load_font_go env size FONT_CANDIDATES

/-- Measured glyph width `bbox[2] - bbox[0]`. -/
def glyphWidth (b : Bbox) : Int := b.x1 - b.x0

/-- Measured glyph height `bbox[3] - bbox[1]`. -/
def glyphHeight (b : Bbox) : Int := b.y1 - b.y0

/-- The loop's exit test: both measured width and height are at most the
target dimension (`w <= target_height and h <= target_height`). -/
def fits (env : RenderEnv) (target : ℚ) (font : Font) : Bool :=
  let b := env.textbbox font
  decide ((glyphWidth b : ℚ) ≤ target) && decide ((glyphHeight b : ℚ) ≤ target)

/-- One shrink step: `font_size = int(font_size * 0.96)`. -/
def shrink_size (s : Int) : Int := pyInt ((s : ℚ) * (96 / 100))

/-- The glyph-fit loop `for _ in range(40)`: measure the current font;
stop when the box fits, otherwise shrink the size and reload the font.
Returns the final font, the final font size, and the number of
measurement iterations performed. -/
def fitLoop (env : RenderEnv) (target : ℚ) : Nat → Font → Int → Font × Int × Nat
  | 0, font, size => (font, size, 0)
  | fuel + 1, font, size =>
    if fits env target font then (font, size, 1)
    else
      let r := fitLoop env target fuel (load_font env (shrink_size size)) (shrink_size size)
      (r.1, r.2.1, r.2.2 + 1)

/-- `target_height = px * (1.0 - PADDING * 2)`. -/
def target_height (px : Int) : ℚ := (px : ℚ) * (1 - PADDING * 2)

/-- `font_size = int(target_height * 1.05)`: the initial overshoot
candidate font size. -/
def initial_font_size (px : Int) : Int := pyInt (target_height px * (105 / 100))

/-- The fitting phase of `make_icon`: run the 40-iteration loop starting
from the initial overshoot candidate. -/
def fit_result (env : RenderEnv) (px : Int) : Font × Int × Nat :=
  fitLoop env (target_height px) 40
    (load_font env (initial_font_size px)) (initial_font_size px)

/-- Horizontal draw position `x = (px - w) / 2 - bbox[0]`. -/
def center_x (px : Int) (b : Bbox) : ℚ :=
  ((px : ℚ) - (glyphWidth b : ℚ)) / 2 - (b.x0 : ℚ)

/-- Vertical draw position `y = (px - h) / 2 - bbox[1]`. -/
def center_y (px : Int) (b : Bbox) : ℚ :=
  ((px : ℚ) - (glyphHeight b : ℚ)) / 2 - (b.y0 : ℚ)

/-- `shadow_offset = max(1, px // 96)`. -/
def shadow_offset (px : Int) : Int := max 1 (Int.fdiv px 96)

/-- One recorded `draw.text(xy, text, fill, font)` call. -/
structure DrawOp where
  pos : ℚ × ℚ
  text : String
  fill : List Nat
  font : Font
deriving DecidableEq

/-- A rendered image: `Image.new(mode, (width, height), background)`
followed by the recorded draw calls, in order.  Rasterisation of these
data by the library is deterministic, so byte-identity of the encoded
output coincides with equality of this structure. -/
structure Image where
  width : Int
  height : Int
  mode : String
  background : List Nat
  ops : List DrawOp
deriving DecidableEq

/-- The draw calls `make_icon` issues: the shadow (only when `px >= 48`,
offset by `shadow_offset` in each axis, warm translucent fill) and then
the glyph itself in the foreground colour. -/
def make_icon_ops (env : RenderEnv) (px : Int) : List DrawOp :=
  let font := (fit_result env px).1
  let b := env.textbbox font
  let x := center_x px b
  let y := center_y px b
  (if 48 ≤ px then
    [⟨(x + (shadow_offset px : ℚ), y + (shadow_offset px : ℚ)), "B",
      [180, 140, 80, 120], font⟩]
   else []) ++ [⟨(x, y), "B", FG_COLOR, font⟩]

/-- `make_icon(px)`: a square RGB canvas of the background colour with
the fitted, centred glyph drawn on it. -/
def make_icon (env : RenderEnv) (px : Int) : Image :=
  { width := px, height := px, mode := "RGB", background := BG_COLOR
  , ops := make_icon_ops env px }

/-- The variant of `make_icon` with the shadow-drawing step removed
entirely, used to state shadow suppression. -/
def make_icon_no_shadow (env : RenderEnv) (px : Int) : Image :=
  { width := px, height := px, mode := "RGB", background := BG_COLOR
  , ops :=
      let font := (fit_result env px).1
      let b := env.textbbox font
      [⟨(center_x px b, center_y px b), "B", FG_COLOR, font⟩] }

/-- `generate_all()`: render one icon per table entry, in table order
(the Python dict merge `{**ANDROID_ICONS, **IOS_ICONS}` keeps insertion
order, and the two tables share no path).  The result pairs each
relative output path with the image persisted there. -/
def generate_all (env : RenderEnv) : List (String × Image) :=
  (ANDROID_ICONS ++ IOS_ICONS).map (fun pr => (pr.1, make_icon env pr.2))

/-- A concrete environment for evaluating the definitions: no candidate
font file exists (so the default font is used) and the backend reports a
fixed 30×40 bounding box for the glyph. -/
def testEnv : RenderEnv :=
  { pathExists := fun _ => false
  , loadOk := fun _ _ => false
  , textbbox := fun _ => ⟨0, 0, 30, 40⟩ }

/-! ### Helper lemmas -/

theorem pyInt_eq_floor {q : ℚ} (h : 0 ≤ q) : pyInt q = ⌊q⌋ := by
  simp [pyInt, not_lt.mpr h]

theorem pyInt_le {q : ℚ} (h : 0 ≤ q) : (pyInt q : ℚ) ≤ q := by
  rw [pyInt_eq_floor h]; exact Int.floor_le q

theorem pyInt_gt {q : ℚ} (h : 0 ≤ q) : q - 1 < (pyInt q : ℚ) := by
  rw [pyInt_eq_floor h]; exact Int.sub_one_lt_floor q

theorem pyInt_nonneg {q : ℚ} (h : 0 ≤ q) : 0 ≤ pyInt q := by
  rw [pyInt_eq_floor h]; exact Int.floor_nonneg.mpr h

theorem shrink_size_lt {s : Int} (h : 0 < s) : shrink_size s < s := by
  have hq : (0 : ℚ) ≤ (s : ℚ) * (96 / 100) := by positivity
  have h1 : ((shrink_size s : Int) : ℚ) ≤ (s : ℚ) * (96 / 100) := pyInt_le hq
  have h2 : (s : ℚ) * (96 / 100) < (s : ℚ) := by
    have hs : (0 : ℚ) < (s : ℚ) := by exact_mod_cast h
    nlinarith
  exact_mod_cast lt_of_le_of_lt h1 h2

theorem shrink_size_le {s : Int} (h : 0 ≤ s) : shrink_size s ≤ s := by
  rcases lt_or_eq_of_le h with h' | h'
  · exact le_of_lt (shrink_size_lt h')
  · subst h'
    simp [shrink_size, pyInt]

theorem shrink_size_nonneg {s : Int} (h : 0 ≤ s) : 0 ≤ shrink_size s := by
  have hq : (0 : ℚ) ≤ (s : ℚ) * (96 / 100) := by positivity
  exact pyInt_nonneg hq

theorem fitLoop_count_le (env : RenderEnv) (t : ℚ) :
    ∀ (fuel : Nat) (f : Font) (s : Int), (fitLoop env t fuel f s).2.2 ≤ fuel := by
  intro fuel
  induction fuel with
  | zero => intro f s; simp [fitLoop]
  | succ n ih =>
    intro f s
    simp only [fitLoop]
    split
    · exact Nat.le_add_left 1 n
    · exact Nat.succ_le_succ (ih _ _)

theorem fitLoop_size_le (env : RenderEnv) (t : ℚ) :
    ∀ (fuel : Nat) (f : Font) (s : Int), 0 ≤ s → (fitLoop env t fuel f s).2.1 ≤ s := by
  intro fuel
  induction fuel with
  | zero => intro f s _; simp [fitLoop]
  | succ n ih =>
    intro f s hs
    simp only [fitLoop]
    split
    · exact le_refl s
    · exact le_trans (ih _ _ (shrink_size_nonneg hs)) (shrink_size_le hs)

theorem target_mul_nonneg {px : Int} (h : 0 ≤ px) :
    (0 : ℚ) ≤ target_height px * (105 / 100) := by
  unfold target_height PADDING
  have : (0 : ℚ) ≤ (px : ℚ) := by exact_mod_cast h
  nlinarith

/-! ### Claims -/

/-- Claim C1: the glyph-fit loop of `make_icon` performs at most 40
measurement iterations; whenever fuel remains it stops immediately (with
a single measurement) as soon as both measured width and height fit
within the target dimension `px * (1 - 2 * PADDING)`, and otherwise
shrinks the candidate size by the factor 0.96 (truncated to int) and
reloads the font before the next iteration. -/
theorem fit_loop_spec :
    (∀ (env : RenderEnv) (px : Int), (fit_result env px).2.2 ≤ 40)
    ∧ (∀ (env : RenderEnv) (target : ℚ) (fuel : Nat) (f : Font) (s : Int),
        fits env target f = true → fitLoop env target (fuel + 1) f s = (f, s, 1))
    ∧ (∀ (env : RenderEnv) (target : ℚ) (fuel : Nat) (f : Font) (s : Int),
        fits env target f = false →
          fitLoop env target (fuel + 1) f s =
            ((fitLoop env target fuel (load_font env (shrink_size s)) (shrink_size s)).1,
             (fitLoop env target fuel (load_font env (shrink_size s)) (shrink_size s)).2.1,
             (fitLoop env target fuel (load_font env (shrink_size s)) (shrink_size s)).2.2 + 1)) := by
  refine ⟨fun env px => fitLoop_count_le env (target_height px) 40 _ _, ?_, ?_⟩
  · intro env target fuel f s h
    simp [fitLoop, h]
  · intro env target fuel f s h
    simp [fitLoop, h]

theorem fit_loop_spec_witness :
    (fit_result testEnv 48).2.2 ≤ 40
    ∧ fitLoop testEnv 100 1 Font.default 30 = (Font.default, 30, 1)
    ∧ fitLoop testEnv 10 1 Font.default 30 =
        ((fitLoop testEnv 10 0 (load_font testEnv (shrink_size 30)) (shrink_size 30)).1,
         (fitLoop testEnv 10 0 (load_font testEnv (shrink_size 30)) (shrink_size 30)).2.1,
         (fitLoop testEnv 10 0 (load_font testEnv (shrink_size 30)) (shrink_size 30)).2.2 + 1) :=
  ⟨fit_loop_spec.1 testEnv 48,
   fit_loop_spec.2.1 testEnv 100 0 Font.default 30 (by decide),
   fit_loop_spec.2.2 testEnv 10 0 Font.default 30 (by decide)⟩

/-- Claim C2: for every positive edge length px, `make_icon` returns a
square raster of exactly px by px pixels. -/
theorem make_icon_square (env : RenderEnv) (px : Int) (hpx : 0 < px) :
    (make_icon env px).width = px ∧ (make_icon env px).height = px :=
  ⟨rfl, rfl⟩

theorem make_icon_square_witness :
    (0 : Int) < 3 ∧ (make_icon testEnv 3).width = 3 ∧ (make_icon testEnv 3).height = 3 :=
  ⟨by decide, make_icon_square testEnv 3 (by decide)⟩

/-- Claim C9: `make_icon` is deterministic — the same edge length under
the same environment (available fonts and measurement backend) produces
identical output; the renderer reads no state outside `RenderEnv`. -/
theorem make_icon_deterministic (env1 env2 : RenderEnv) (px : Int) (h : env1 = env2) :
    make_icon env1 px = make_icon env2 px := by rw [h]

theorem make_icon_deterministic_witness :
    testEnv = testEnv ∧ make_icon testEnv 48 = make_icon testEnv 48 :=
  ⟨rfl, make_icon_deterministic testEnv testEnv 48 rfl⟩

/-- Claim C10: the candidate font size never increases through the
fitting loop: one shrink step strictly decreases every positive size,
the loop's final size never exceeds its starting size, and the size used
for drawing never exceeds the initial overshoot candidate. -/
theorem font_size_antitone :
    (∀ s : Int, 0 < s → shrink_size s < s)
    ∧ (∀ (env : RenderEnv) (t : ℚ) (fuel : Nat) (f : Font) (s : Int),
        0 ≤ s → (fitLoop env t fuel f s).2.1 ≤ s)
    ∧ (∀ (env : RenderEnv) (px : Int), 0 ≤ px →
        (fit_result env px).2.1 ≤ initial_font_size px) := by
  refine ⟨fun s h => shrink_size_lt h, fun env t fuel f s h => fitLoop_size_le env t fuel f s h, ?_⟩
  intro env px hpx
  exact fitLoop_size_le env (target_height px) 40 _ _ (pyInt_nonneg (target_mul_nonneg hpx))

theorem font_size_antitone_witness :
    ((0 : Int) < 30 ∧ shrink_size 30 < 30)
    ∧ ((0 : Int) ≤ 30 ∧ (fitLoop testEnv 10 40 Font.default 30).2.1 ≤ 30)
    ∧ ((0 : Int) ≤ 48 ∧ (fit_result testEnv 48).2.1 ≤ initial_font_size 48) :=
  ⟨⟨by decide, font_size_antitone.1 30 (by decide)⟩,
   ⟨by decide, font_size_antitone.2.1 testEnv 10 40 Font.default 30 (by decide)⟩,
   ⟨by decide, font_size_antitone.2.2 testEnv 48 (by decide)⟩⟩

/-- Claim C3 as stated is false: the shadow's offset from the main
glyph's position is `max 1 (px // 96)`, not exactly 1 pixel.  At
px = 192 (an entry of the Android table) the two draw calls sit at
(83, 78) and (81, 76): the offset is 2 pixels in each axis. -/
theorem shadow_offset_not_one :
    (make_icon testEnv 192).ops.map DrawOp.pos = [(83, 78), (81, 76)]
    ∧ (83 : ℚ) - 81 = 2 ∧ (78 : ℚ) - 76 = 2 ∧ (2 : ℚ) ≠ 1 := by
  with_unfolding_all decide

/-- Claim C3 (amended): whenever px is at least the small-icon threshold
48, `make_icon` draws a shadow copy of the glyph in the secondary colour
beneath (before) the main glyph, offset from the main glyph's position
by exactly `shadow_offset px = max 1 (px // 96)` pixels in each axis. -/
theorem shadow_above_threshold (env : RenderEnv) (px : Int) (hpx : 48 ≤ px) :
    (make_icon env px).ops =
      [⟨(center_x px (env.textbbox (fit_result env px).1) + (shadow_offset px : ℚ),
         center_y px (env.textbbox (fit_result env px).1) + (shadow_offset px : ℚ)),
        "B", [180, 140, 80, 120], (fit_result env px).1⟩,
       ⟨(center_x px (env.textbbox (fit_result env px).1),
         center_y px (env.textbbox (fit_result env px).1)),
        "B", FG_COLOR, (fit_result env px).1⟩] := by
  simp [make_icon, make_icon_ops, hpx]

theorem shadow_above_threshold_witness :
    (48 : Int) ≤ 48
    ∧ (make_icon testEnv 48).ops =
      [⟨(center_x 48 (testEnv.textbbox (fit_result testEnv 48).1) + (shadow_offset 48 : ℚ),
         center_y 48 (testEnv.textbbox (fit_result testEnv 48).1) + (shadow_offset 48 : ℚ)),
        "B", [180, 140, 80, 120], (fit_result testEnv 48).1⟩,
       ⟨(center_x 48 (testEnv.textbbox (fit_result testEnv 48).1),
         center_y 48 (testEnv.textbbox (fit_result testEnv 48).1)),
        "B", FG_COLOR, (fit_result testEnv 48).1⟩] :=
  ⟨by decide, shadow_above_threshold testEnv 48 (by decide)⟩

/-- Claim C4: for px below the small-icon threshold 48, `make_icon`
draws no shadow: its output equals, byte for byte, the variant that
omits the shadow-drawing step entirely. -/
theorem no_shadow_below_threshold (env : RenderEnv) (px : Int) (hpx : px < 48) :
    make_icon env px = make_icon_no_shadow env px := by
  simp [make_icon, make_icon_no_shadow, make_icon_ops, not_le.mpr hpx]

theorem no_shadow_below_threshold_witness :
    (20 : Int) < 48 ∧ make_icon testEnv 20 = make_icon_no_shadow testEnv 20 :=
  ⟨by decide, no_shadow_below_threshold testEnv 20 (by decide)⟩

/-- Claim C5: drawing the glyph at `(center_x, center_y)` puts the
midpoint of its rendered bounding box — which spans
`[x + b.x0, x + b.x1] × [y + b.y0, y + b.y1]` when text drawn at (x, y)
measures as box b at the origin — within one pixel of the canvas centre
(px/2, px/2), for every px and every box the backend reports. -/
theorem glyph_centered (px : Int) (b : Bbox) :
    |((center_x px b + (b.x0 : ℚ)) + (center_x px b + (b.x1 : ℚ))) / 2 - (px : ℚ) / 2| < 1
    ∧ |((center_y px b + (b.y0 : ℚ)) + (center_y px b + (b.y1 : ℚ))) / 2 - (px : ℚ) / 2| < 1 := by
  constructor
  · have h : ((center_x px b + (b.x0 : ℚ)) + (center_x px b + (b.x1 : ℚ))) / 2 - (px : ℚ) / 2
        = 0 := by
      unfold center_x glyphWidth
      push_cast
      ring
    rw [h]
    norm_num
  · have h : ((center_y px b + (b.y0 : ℚ)) + (center_y px b + (b.y1 : ℚ))) / 2 - (px : ℚ) / 2
        = 0 := by
      unfold center_y glyphHeight
      push_cast
      ring
    rw [h]
    norm_num

/-- Claim C6: generating the full table yields exactly 20 outputs — 5
Android and 15 iOS — one at each declared relative path with that path's
declared square pixel size, at pairwise distinct paths, and nothing
else. -/
theorem generate_all_spec (env : RenderEnv) :
    (generate_all env).length = 20
    ∧ ANDROID_ICONS.length = 5 ∧ IOS_ICONS.length = 15
    ∧ ((generate_all env).map Prod.fst).Nodup
    ∧ (generate_all env).map (fun pr => (pr.1, pr.2.width, pr.2.height))
        = (ANDROID_ICONS ++ IOS_ICONS).map (fun pr => (pr.1, pr.2, pr.2)) := by
  refine ⟨rfl, rfl, rfl, ?_, rfl⟩
  have h : (generate_all env).map Prod.fst = (ANDROID_ICONS ++ IOS_ICONS).map Prod.fst := by
    simp [generate_all, Function.comp_def]
  rw [h]
  decide

/-- Claim C7: `load_font` returns the truetype font at the requested
size for the first candidate path that exists and loads successfully,
and the built-in default font when every candidate is missing or fails
to load; it is a total function — no error escapes it. -/
theorem load_font_spec (env : RenderEnv) (size : Int) :
    load_font env size =
      (FONT_CANDIDATES.find? (fun p => env.pathExists p && env.loadOk p size)).elim
        Font.default (fun p => Font.truetype p size) := by
  show load_font_go env size FONT_CANDIDATES = _
  induction FONT_CANDIDATES with
  | nil => simp [load_font_go]
  | cons p rest ih =>
    by_cases h1 : env.pathExists p
    · by_cases h2 : env.loadOk p size
      · simp [load_font_go, List.find?, h1, h2]
      · simpa [load_font_go, List.find?, h1, h2] using ih
    · simpa [load_font_go, List.find?, h1] using ih

/-- Claim C8 as stated is false: the initial candidate font size is the
integer truncation of the overshoot product, not the product itself.  At
px = 48 the code's candidate is int(39.312) = 39, while
px * (1 - 2 * PADDING) * 1.05 = 39.312. -/
theorem initial_size_not_exact :
    initial_font_size 48 = 39
    ∧ ((initial_font_size 48 : ℚ) ≠ (48 : ℚ) * (1 - 2 * PADDING) * (105 / 100)) := by
  with_unfolding_all decide

/-- Claim C8 (amended): the initial candidate font size tried by
`make_icon` equals `int(px * (1 - 2 * PADDING) * 1.05)`: for nonnegative
px it is the greatest integer not exceeding the slight overshoot
`px * (1 - 2 * PADDING) * 1.05` of the target dimension. -/
theorem initial_font_size_spec (px : Int) (hpx : 0 ≤ px) :
    (initial_font_size px : ℚ) ≤ (px : ℚ) * (1 - 2 * PADDING) * (105 / 100)
    ∧ (px : ℚ) * (1 - 2 * PADDING) * (105 / 100) - 1 < (initial_font_size px : ℚ) := by
  have hq := target_mul_nonneg hpx
  have heq : target_height px * (105 / 100) = (px : ℚ) * (1 - 2 * PADDING) * (105 / 100) := by
    unfold target_height
    ring
  constructor
  · exact le_of_le_of_eq (pyInt_le hq) heq
  · rw [← heq]
    exact pyInt_gt hq

theorem initial_font_size_spec_witness :
    (0 : Int) ≤ 48
    ∧ ((initial_font_size 48 : ℚ) ≤ (48 : ℚ) * (1 - 2 * PADDING) * (105 / 100)
       ∧ (48 : ℚ) * (1 - 2 * PADDING) * (105 / 100) - 1 < (initial_font_size 48 : ℚ)) :=
  ⟨by decide, initial_font_size_spec 48 (by decide)⟩

end GenIcons
